import Mathlib

/-!
Verification of `upload_today_to_youtube.py` (CRE8-POSTER).

Shallow embedding of the script's pure logic:
* `env_bool`, `env_int` model the configuration readers (the environment
  variable's value is passed as an `Option String`, `none` = absent).
* `pyLstrip`/`pyRstrip`/`pyStrip` model Python's `str.lstrip("/")`,
  `str.rstrip("/")` and `str.strip("/")` for a single character.
* `download_video_to_temp` models the Fetcher: it receives the HTTP
  response (status code and the list of body chunks, bytes as `Nat`) and
  returns `Except` (an exception from `raise_for_status`), `Option`
  (`none` = the 404 "not found" outcome), and on success the byte content
  written to the scratch file.
* `upload_one_video` models the Uploader's metadata construction, the
  extraction of the video id from the platform response, and the Python
  function's return value (the source has no `return` statement, so the
  value returned to the caller is `none`).
* `runMain` models the orchestrator loop of `main`: the fetch and upload
  collaborators are oracles (functions from the URL / file path to an
  outcome, where `exn` models a raised exception), and the observable
  behaviour is the final `uploaded_any` flag together with a trace of
  events (fetch calls, upload calls, per-file error logs, the run-level
  "nothing uploaded" notice).
-/

/-- Python `s.lstrip(c)` for a single character: drop leading copies of `c`. -/
def pyLstrip (c : Char) (s : String) : String :=
  String.mk (s.toList.dropWhile (fun a => a == c))

/-- Python `s.rstrip(c)` for a single character: drop trailing copies of `c`. -/
def pyRstrip (c : Char) (s : String) : String :=
  String.mk ((s.toList.reverse.dropWhile (fun a => a == c)).reverse)

/-- Python `s.strip(c)` for a single character: drop copies of `c` at both ends. -/
def pyStrip (c : Char) (s : String) : String :=
  pyRstrip c (pyLstrip c s)

/-- Python `s.lower()`: lowercase every character (modelled for ASCII via
`Char.toLower`, which is what the configuration values use). -/
def pyLower (s : String) : String :=
  String.mk (s.toList.map Char.toLower)

/-- `env_bool` from the source: absent variable gives the default, a present
value is lowercased and compared against `("1", "true", "yes", "y")`. -/
def env_bool (val : Option String) (default : Bool) : Bool :=
  match val with
  | none => default
  | some v => [ "1", "true", "yes", "y" ].contains (pyLower v)

/-- The digits of a base-10 numeral, `none` when the list is empty or holds
a non-digit character. -/
def parseDigits (l : List Char) : Option Nat :=
  if l.isEmpty then none
  else
    l.foldl
      (fun acc? c =>
        match acc? with
        | none => none
        | some acc => if c.isDigit then some (acc * 10 + (c.toNat - 48)) else none)
      (some 0)

/-- Python `int(s)` on a base-10 numeral with an optional sign, `none` when
`s` does not parse (models the `ValueError` branch; Python additionally
strips whitespace and accepts underscores between digits, which no claim
depends on). -/
def pyParseInt (s : String) : Option Int :=
  match s.toList with
  | '-' :: rest => (parseDigits rest).map (fun n => -(n : Int))
  | '+' :: rest => (parseDigits rest).map (fun n => (n : Int))
  | l => (parseDigits l).map (fun n => (n : Int))

/-- `env_int` from the source: `int(os.getenv(name, str(default)))` with
`ValueError` falling back to the default. -/
def env_int (val : Option String) (default : Int) : Int :=
  match pyParseInt (val.getD (toString default)) with
  | some n => n
  | none => default

/-- An HTTP response as `requests.get` delivers it to the code: the status
code, and the body as the list of chunks that `iter_content` yields
(bytes modelled as `Nat`). -/
structure HttpResponse where
  status : Nat
  chunks : List (List Nat)
deriving DecidableEq

/-- What a call of `download_video_to_temp` does: `raised` models an
exception propagating out of it (from `resp.raise_for_status()`),
`notFound` the `return None`, and `saved` the returned temp-file path,
represented by the byte content written to the file. -/
inductive DownloadOutcome where
  | raised (msg : String)
  | notFound
  | saved (content : List Nat)
deriving DecidableEq

/-- `download_video_to_temp` from the source: on status 404 return `None`;
otherwise `resp.raise_for_status()` raises exactly for `400 ≤ status < 600`;
otherwise write each truthy (non-empty) chunk of `iter_content` to the
temp file and return its path. -/
def download_video_to_temp (resp : HttpResponse) : DownloadOutcome :=
  if resp.status = 404 then
    DownloadOutcome.notFound
  else if 400 ≤ resp.status ∧ resp.status < 600 then
    DownloadOutcome.raised "HTTPError"
  else
    DownloadOutcome.saved
      (resp.chunks.foldl (fun acc c => if c.isEmpty then acc else acc ++ c) [])

/-- The platform's JSON response to the insert call, as the code reads it:
`response.get("id")`. -/
structure YtResponse where
  id : Option String
deriving DecidableEq

/-- The metadata document `body` built by `upload_one_video`: the snippet
section (title, description, categoryId), the status section
(privacyStatus, selfDeclaredMadeForKids), and whether the placeholder
`contentDetails` key was added. -/
structure UploadBody where
  title : String
  description : String
  categoryId : String
  privacyStatus : String
  selfDeclaredMadeForKids : Bool
  hasContentDetails : Bool
deriving DecidableEq

/-- What one successful `upload_one_video` call does, observably: the
metadata document it submits, the video id it extracts from the response
and prints, and the value the Python function returns to its caller
(the source has no `return` statement, so this is `none`, Python `None`). -/
structure UploadOutcome where
  body : UploadBody
  logged_video_id : Option String
  ret : Option String
deriving DecidableEq

/-- The fixed disclosure text appended to the description when
`altered_content` is set. -/
def alteredContentDisclosure : String := "\n\n[Contains AI-generated or edited content]"

/-- `upload_one_video` from the source, on the success path: build the
metadata `body`, append the disclosure to the description (and add the
placeholder `contentDetails` section) when `altered_content` is true,
submit, read `response.get("id")` and print it; the function returns
nothing. -/
def upload_one_video (title description category_id privacy_status : String)
    (made_for_kids altered_content : Bool) (response : YtResponse) : UploadOutcome :=
  let body : UploadBody :=
    { title := title
      description := description
      categoryId := category_id
      privacyStatus := privacy_status
      selfDeclaredMadeForKids := made_for_kids
      hasContentDetails := false }
  let body :=
    if altered_content then
      { body with
          hasContentDetails := true
          description := body.description ++ alteredContentDisclosure }
    else body
  { body := body, logged_video_id := response.id, ret := none }

/-- The filename derived in `main`'s loop for a given index:
`{today}.mp4` when `max_daily_uploads == 1`, else `{today}-{index}.mp4`. -/
def jobFilename (today : String) (maxDaily index : Int) : String :=
  if maxDaily == 1 then today ++ ".mp4"
  else today ++ "-" ++ toString index ++ ".mp4"

/-- The title derived in `main`'s loop for a given index (`titlePrefix` is
the `title_prefix` configuration value). -/
def jobTitle (titlePrefix today : String) (maxDaily index : Int) : String :=
  if maxDaily == 1 then titlePrefix ++ " - " ++ today
  else titlePrefix ++ " - " ++ today ++ " Part " ++ toString index

/-- The URL composition of `main`: `base_url` is `rstrip`-ed of `/` (once,
at configuration time), the prefix path is `strip`-ed of `/`, and the URL
is `f"{base_url}/{prefix}/{filename}"`. -/
def composeUrl (baseUrl prefixPath filename : String) : String :=
  pyRstrip '/' baseUrl ++ "/" ++ pyStrip '/' prefixPath ++ "/" ++ filename

/-- The indices `range(1, max_daily_uploads + 1)` of `main`'s loop: empty
when `max_daily_uploads ≤ 0`, else `[1, …, max_daily_uploads]`. -/
def mainIndices (maxDaily : Int) : List Int :=
  (List.range maxDaily.toNat).map (fun i : Nat => (i : Int) + 1)

/-- Outcome of one Fetcher invocation as the orchestrator sees it:
the 404 `None`, a successful temp-file path, or a raised exception. -/
inductive FetchResult where
  | notFound
  | ok (path : String)
  | exn (msg : String)
deriving DecidableEq

/-- Outcome of one Uploader invocation as the orchestrator sees it:
success (with the extracted video id) or a raised exception. -/
inductive UploadResult where
  | ok (videoId : Option String)
  | exn (msg : String)
deriving DecidableEq

/-- The observable events of a run of `main`: a fetch call with its URL, an
upload call with the temp path, title and configured description, the
`"  -> Error with {filename}: {e}"` log line of the `except` handler, and
the run-level `"No files were uploaded today"` notice. -/
inductive Event where
  | fetchCall (url : String)
  | uploadCall (path title description : String)
  | errorLog (filename msg : String)
  | notice
deriving DecidableEq

/-- The configuration `main` reads before the loop (raw environment values;
`baseUrl`/`prefixPath` are `R2_BASE_URL`/`R2_PREFIX_PATH` before the slash
trimming, `titlePrefix` is `title_prefix`, `maxDaily` is
`max_daily_uploads`). -/
structure Config where
  baseUrl : String
  prefixPath : String
  titlePrefix : String
  description : String
  categoryId : String
  privacyStatus : String
  madeForKids : Bool
  alteredContent : Bool
  maxDaily : Int
deriving DecidableEq

/-- One iteration of `main`'s loop (the body of `for index in range(…)`),
given the current `uploaded_any` flag: compute filename, title and URL,
call the fetch oracle; on `None` continue; on success call the upload
oracle and set the flag; any raised exception is caught and logged with
the filename. Returns the new flag and the events of this iteration. -/
def runIndex (cfg : Config) (today : String) (fetch : String → FetchResult)
    (upload : String → UploadResult) (uploadedAny : Bool) (index : Int) :
    Bool × List Event :=
  let filename := jobFilename today cfg.maxDaily index
  let title := jobTitle cfg.titlePrefix today cfg.maxDaily index
  let url := composeUrl cfg.baseUrl cfg.prefixPath filename
  match fetch url with
  | FetchResult.notFound => (uploadedAny, [Event.fetchCall url])
  | FetchResult.exn m => (uploadedAny, [Event.fetchCall url, Event.errorLog filename m])
  | FetchResult.ok path =>
      match upload path with
      | UploadResult.ok _ =>
          (true, [Event.fetchCall url, Event.uploadCall path title cfg.description])
      | UploadResult.exn m =>
          (uploadedAny,
            [Event.fetchCall url, Event.uploadCall path title cfg.description,
              Event.errorLog filename m])

/-- The events one index contributes to the run (they do not depend on the
incoming `uploaded_any` flag). -/
def indexEvents (cfg : Config) (today : String) (fetch : String → FetchResult)
    (upload : String → UploadResult) (index : Int) : List Event :=
  (runIndex cfg today fetch upload false index).2

/-- Whether the iteration for `index` completes an upload successfully
(reaches the `uploaded_any = True` line). -/
def indexSucceeds (cfg : Config) (today : String) (fetch : String → FetchResult)
    (upload : String → UploadResult) (index : Int) : Bool :=
  (runIndex cfg today fetch upload false index).1

/-- The exception message the iteration for `index` would raise into the
`except` handler, if any: a fetch exception, or an upload exception when
the fetch succeeded. -/
def indexRaises (cfg : Config) (today : String) (fetch : String → FetchResult)
    (upload : String → UploadResult) (index : Int) : Option String :=
  match fetch (composeUrl cfg.baseUrl cfg.prefixPath (jobFilename today cfg.maxDaily index)) with
  | FetchResult.notFound => none
  | FetchResult.exn m => some m
  | FetchResult.ok path =>
      match upload path with
      | UploadResult.ok _ => none
      | UploadResult.exn m => some m

/-- One step of the orchestrator's fold: apply `runIndex` to the running
`uploaded_any` flag and append the iteration's events to the trace. -/
def loopStep (cfg : Config) (today : String) (fetch : String → FetchResult)
    (upload : String → UploadResult) (st : Bool × List Event) (index : Int) :
    Bool × List Event :=
  let s := runIndex cfg today fetch upload st.1 index
  (s.1, st.2 ++ s.2)

/-- `main` from the source, with the Fetcher and Uploader as oracles: fold
the loop body over the indices starting from `uploaded_any = False`, then
emit the "nothing uploaded" notice when the flag is still false. Returns
the final flag and the event trace. -/
def runMain (cfg : Config) (today : String) (fetch : String → FetchResult)
    (upload : String → UploadResult) : Bool × List Event :=
  let r := (mainIndices cfg.maxDaily).foldl (loopStep cfg today fetch upload)
    (false, ([] : List Event))
  (r.1, r.2 ++ (if r.1 then [] else [Event.notice]))

/-- Whether an event is the run-level "nothing uploaded" notice. -/
def isNotice : Event → Bool
  | Event.notice => true
  | _ => false

/-- The URL composition as the claim words it ("both baseUrl and prefix have
been trimmed of surrounding (leading and trailing) slashes"): written from
the claim, to be compared with `composeUrl` from the source. -/
def composeUrlClaim (baseUrl prefixPath filename : String) : String :=
  pyStrip '/' baseUrl ++ "/" ++ pyStrip '/' prefixPath ++ "/" ++ filename

/-- The boolean-reader contract as the claim words it: the reader "returns
true exactly when the variable is present and its value, compared
case-insensitively, is one of 1/true/yes/y". Written from the claim, to be
compared with `env_bool` from the source. -/
def envBoolClaim (val : Option String) (default : Bool) : Prop :=
  env_bool val default = true ↔
    (val.isSome = true ∧ [ "1", "true", "yes", "y" ].contains (pyLower (val.getD "")) = true)

/-- `begWith l sub`: the character list `l` starts with the segment `sub`. -/
def begWith : List Char → List Char → Bool
  | _, [] => true
  | [], _ :: _ => false
  | a :: l, b :: m => a == b && begWith l m

/-- `hasSeg l sub`: the character list `l` contains the contiguous segment
`sub` (used to state "the title contains `Part {i}`"). -/
def hasSeg : List Char → List Char → Bool
  | [], sub => begWith [] sub
  | a :: t, sub => begWith (a :: t) sub || hasSeg t sub

/-! ### Helper lemmas -/

theorem head?_dropWhile_ne {α : Type} (p : α → Bool) (c : α) (hc : p c = true)
    (l : List α) : (l.dropWhile p).head? ≠ some c := by
  induction l with
  | nil => simp
  | cons a t ih =>
      rw [List.dropWhile_cons]
      by_cases h : p a = true
      · simpa [h] using ih
      · rw [if_neg h]
        simp only [List.head?_cons, ne_eq, Option.some.injEq]
        intro he
        subst he
        exact h hc

theorem prefix_head?_ne {α : Type} {r l : List α} {c : α}
    (hpre : r <+: l) (hl : l.head? ≠ some c) : r.head? ≠ some c := by
  cases r with
  | nil => simp
  | cons a t =>
      obtain ⟨u, hu⟩ := hpre
      subst hu
      simpa using hl

theorem pyRstrip_getLast?_ne (c : Char) (s : String) :
    (pyRstrip c s).toList.getLast? ≠ some c := by
  show ((s.toList.reverse.dropWhile (fun a => a == c)).reverse).getLast? ≠ some c
  rw [List.getLast?_reverse]
  exact head?_dropWhile_ne _ c (by simp) _

theorem pyLstrip_head?_ne (c : Char) (s : String) :
    (pyLstrip c s).toList.head? ≠ some c := by
  show ((s.toList.dropWhile (fun a => a == c))).head? ≠ some c
  exact head?_dropWhile_ne _ c (by simp) _

theorem pyStrip_head?_ne (c : Char) (s : String) :
    (pyStrip c s).toList.head? ≠ some c := by
  have h1 : (pyLstrip c s).toList.reverse.dropWhile (fun a => a == c)
      <:+ (pyLstrip c s).toList.reverse := List.dropWhile_suffix _
  have h2 := List.reverse_prefix.mpr h1
  rw [List.reverse_reverse] at h2
  exact prefix_head?_ne h2 (pyLstrip_head?_ne c s)

theorem pyStrip_getLast?_ne (c : Char) (s : String) :
    (pyStrip c s).toList.getLast? ≠ some c :=
  pyRstrip_getLast?_ne c (pyLstrip c s)

theorem begWith_append (sub rest : List Char) : begWith (sub ++ rest) sub = true := by
  induction sub with
  | nil => simp [begWith]
  | cons b m ih => simp [begWith, ih]

theorem hasSeg_append (pre sub : List Char) : hasSeg (pre ++ sub) sub = true := by
  induction pre with
  | nil =>
      rw [List.nil_append]
      cases sub with
      | nil => rfl
      | cons b m =>
          have h := begWith_append (b :: m) []
          rw [List.append_nil] at h
          simp [hasSeg, h]
  | cons p t ih => simp [hasSeg, ih]

theorem runIndex_eq (cfg : Config) (today : String) (fetch : String → FetchResult)
    (upload : String → UploadResult) (b : Bool) (index : Int) :
    runIndex cfg today fetch upload b index =
      (b || indexSucceeds cfg today fetch upload index,
        indexEvents cfg today fetch upload index) := by
  simp only [runIndex, indexSucceeds, indexEvents]
  cases hf : fetch (composeUrl cfg.baseUrl cfg.prefixPath (jobFilename today cfg.maxDaily index)) with
  | notFound => simp
  | exn m => simp
  | ok path =>
      cases hu : upload path with
      | ok v => simp [hu]
      | exn m => simp [hu]

theorem loopStep_eq (cfg : Config) (today : String) (fetch : String → FetchResult)
    (upload : String → UploadResult) (b : Bool) (evs : List Event) (index : Int) :
    loopStep cfg today fetch upload (b, evs) index =
      (b || indexSucceeds cfg today fetch upload index,
        evs ++ indexEvents cfg today fetch upload index) := by
  simp [loopStep, runIndex_eq]

theorem runLoop_foldl (cfg : Config) (today : String) (fetch : String → FetchResult)
    (upload : String → UploadResult) (l : List Int) (b : Bool) (evs : List Event) :
    l.foldl (loopStep cfg today fetch upload) (b, evs) =
      (b || l.any (fun i => indexSucceeds cfg today fetch upload i),
        evs ++ (l.map (fun i => indexEvents cfg today fetch upload i)).flatten) := by
  induction l generalizing b evs with
  | nil => simp
  | cons i t ih =>
      rw [List.foldl_cons, loopStep_eq, ih]
      simp [Bool.or_assoc, List.append_assoc]

theorem runMain_eq (cfg : Config) (today : String) (fetch : String → FetchResult)
    (upload : String → UploadResult) :
    runMain cfg today fetch upload =
      ((mainIndices cfg.maxDaily).any (fun i => indexSucceeds cfg today fetch upload i),
        ((mainIndices cfg.maxDaily).map (fun i => indexEvents cfg today fetch upload i)).flatten
          ++ (if (mainIndices cfg.maxDaily).any (fun i => indexSucceeds cfg today fetch upload i)
              then [] else [Event.notice])) := by
  simp only [runMain]
  rw [runLoop_foldl]
  simp

theorem indexEvents_notice_count (cfg : Config) (today : String)
    (fetch : String → FetchResult) (upload : String → UploadResult) (index : Int) :
    (indexEvents cfg today fetch upload index).countP isNotice = 0 := by
  simp only [indexEvents, runIndex]
  cases hf : fetch (composeUrl cfg.baseUrl cfg.prefixPath (jobFilename today cfg.maxDaily index)) with
  | notFound => simp [isNotice]
  | exn m => simp [isNotice]
  | ok path =>
      cases hu : upload path with
      | ok v => simp [hu, isNotice]
      | exn m => simp [hu, isNotice]

theorem mem_runMain_trace (cfg : Config) (today : String) (fetch : String → FetchResult)
    (upload : String → UploadResult) (index : Int) (e : Event)
    (hmem : index ∈ mainIndices cfg.maxDaily)
    (he : e ∈ indexEvents cfg today fetch upload index) :
    e ∈ (runMain cfg today fetch upload).2 := by
  rw [runMain_eq]
  refine List.mem_append.mpr (Or.inl ?_)
  rw [List.mem_flatten]
  exact ⟨_, List.mem_map_of_mem _ hmem, he⟩

theorem errorLog_mem_indexEvents (cfg : Config) (today : String)
    (fetch : String → FetchResult) (upload : String → UploadResult) (index : Int)
    (m : String) (hexn : indexRaises cfg today fetch upload index = some m) :
    Event.errorLog (jobFilename today cfg.maxDaily index) m ∈
      indexEvents cfg today fetch upload index := by
  simp only [indexRaises] at hexn
  simp only [indexEvents, runIndex]
  cases hf : fetch (composeUrl cfg.baseUrl cfg.prefixPath (jobFilename today cfg.maxDaily index)) with
  | notFound => simp [hf] at hexn
  | exn m2 =>
      simp only [hf, Option.some.injEq] at hexn
      subst hexn
      simp
  | ok path =>
      simp only [hf] at hexn
      cases hu : upload path with
      | ok v => simp [hu] at hexn
      | exn m2 =>
          simp only [hu, Option.some.injEq] at hexn
          subst hexn
          simp [hu]

theorem fetchCall_mem_indexEvents (cfg : Config) (today : String)
    (fetch : String → FetchResult) (upload : String → UploadResult) (index : Int) :
    Event.fetchCall (composeUrl cfg.baseUrl cfg.prefixPath (jobFilename today cfg.maxDaily index))
      ∈ indexEvents cfg today fetch upload index := by
  simp only [indexEvents, runIndex]
  cases hf : fetch (composeUrl cfg.baseUrl cfg.prefixPath (jobFilename today cfg.maxDaily index)) with
  | notFound => simp
  | exn m => simp
  | ok path => cases hu : upload path <;> simp [hu]

theorem chunkFoldl_eq (l : List (List Nat)) (acc : List Nat) :
    l.foldl (fun acc c => if c.isEmpty then acc else acc ++ c) acc
      = acc ++ (l.filter (fun c => !c.isEmpty)).flatten := by
  induction l generalizing acc with
  | nil => simp
  | cons c t ih =>
      rw [List.foldl_cons]
      by_cases hc : c.isEmpty
      · have : c = [] := List.isEmpty_iff.mp hc
        subst this
        simpa using ih acc
      · simp only [hc, if_false]
        rw [ih, List.filter_cons]
        simp [hc, List.append_assoc]

/-! ### Claims -/

/-- C1: for every index in the orchestrator loop, if the fetch or the
upload for that index raises an exception (modelled by the `exn` outcome of
the oracles, summarised by `indexRaises`), the orchestrator catches it and
logs it together with that index's filename, and every index of the loop is
still processed — each index's fetch call appears in the run's trace — so
no exception raised inside one iteration aborts the remaining iterations or
escapes the loop (`runMain` is total and still emits the full trace). -/
theorem spec_C1_failure_isolated (cfg : Config) (today : String)
    (fetch : String → FetchResult) (upload : String → UploadResult)
    (index : Int) (m : String)
    (hmem : index ∈ mainIndices cfg.maxDaily)
    (hexn : indexRaises cfg today fetch upload index = some m) :
    Event.errorLog (jobFilename today cfg.maxDaily index) m
        ∈ (runMain cfg today fetch upload).2 ∧
    ∀ j ∈ mainIndices cfg.maxDaily,
      Event.fetchCall (composeUrl cfg.baseUrl cfg.prefixPath (jobFilename today cfg.maxDaily j))
        ∈ (runMain cfg today fetch upload).2 := by
  constructor
  · exact mem_runMain_trace _ _ _ _ _ _ hmem
      (errorLog_mem_indexEvents _ _ _ _ _ _ hexn)
  · intro j hj
    exact mem_runMain_trace _ _ _ _ _ _ hj
      (fetchCall_mem_indexEvents _ _ _ _ _)

theorem spec_C1_witness :
    Event.errorLog "2024-03-01-1.mp4" "boom" ∈
      (runMain
        { baseUrl := "https://cdn.example.com", prefixPath := "videos",
          titlePrefix := "Daily Video", description := "", categoryId := "22",
          privacyStatus := "public", madeForKids := false, alteredContent := true,
          maxDaily := 2 }
        "2024-03-01" (fun _ => FetchResult.exn "boom")
        (fun _ => UploadResult.ok (some "vid"))).2 :=
  (spec_C1_failure_isolated
    { baseUrl := "https://cdn.example.com", prefixPath := "videos",
      titlePrefix := "Daily Video", description := "", categoryId := "22",
      privacyStatus := "public", madeForKids := false, alteredContent := true,
      maxDaily := 2 }
    "2024-03-01" (fun _ => FetchResult.exn "boom")
    (fun _ => UploadResult.ok (some "vid")) 1 "boom" (by decide) rfl).1

/-- C2 fails on the code at a concrete input: for a successful call whose
platform response carries the id "abc123", `upload_one_video` does not
return that identifier — the Python function body has no `return`
statement, so the caller receives `None`. -/
theorem spec_C2_counterexample :
    (upload_one_video "Daily Video - 2024-03-01" "" "22" "public" false true
        { id := some "abc123" }).ret ≠ some "abc123" ∧
    ({ id := some "abc123" } : YtResponse).id = some "abc123" :=
  ⟨by decide, rfl⟩

/-- C2 amended: for every successful call, the Uploader extracts the
platform-assigned video identifier from the response and logs it, but the
operation returns no value to its caller (Python `None`). -/
theorem spec_C2_extracts_and_logs_id
    (title description category_id privacy_status : String)
    (made_for_kids altered_content : Bool) (response : YtResponse) :
    (upload_one_video title description category_id privacy_status
        made_for_kids altered_content response).logged_video_id = response.id ∧
    (upload_one_video title description category_id privacy_status
        made_for_kids altered_content response).ret = none := by
  cases altered_content <;> exact ⟨rfl, rfl⟩

/-- C3 fails on the code at a concrete input: for a base URL with a leading
slash, the composed URL keeps that slash — the code strips only trailing
slashes from the base URL (`rstrip("/")`), while the claim's composition
(`composeUrlClaim`) trims both ends. -/
theorem spec_C3_counterexample :
    composeUrl "/cdn.example.com/" "videos" "2024-03-01.mp4" ≠
      composeUrlClaim "/cdn.example.com/" "videos" "2024-03-01.mp4" := by decide

/-- C3 amended: for every baseUrl, prefix and filename the orchestrator
composes `{baseUrl}/{prefix}/{filename}` where baseUrl has been trimmed of
trailing slashes only (the trimmed value never ends in a slash) and the
prefix has been trimmed of both leading and trailing slashes (the trimmed
value neither starts nor ends with a slash). -/
theorem spec_C3_url_composition (baseUrl prefixPath filename : String) :
    composeUrl baseUrl prefixPath filename =
      pyRstrip '/' baseUrl ++ "/" ++ pyStrip '/' prefixPath ++ "/" ++ filename ∧
    (pyRstrip '/' baseUrl).toList.getLast? ≠ some '/' ∧
    (pyStrip '/' prefixPath).toList.head? ≠ some '/' ∧
    (pyStrip '/' prefixPath).toList.getLast? ≠ some '/' :=
  ⟨rfl, pyRstrip_getLast?_ne '/' baseUrl, pyStrip_head?_ne '/' prefixPath,
    pyStrip_getLast?_ne '/' prefixPath⟩

/-- C4: for every original description, when `altered_content` is true the
description placed in the upload metadata equals the original followed by
`"\n\n[Contains AI-generated or edited content]"`, and when it is false it
equals the original unchanged. -/
theorem spec_C4_description_disclosure
    (title description category_id privacy_status : String)
    (made_for_kids : Bool) (response : YtResponse) :
    (upload_one_video title description category_id privacy_status
        made_for_kids true response).body.description
      = description ++ "\n\n[Contains AI-generated or edited content]" ∧
    (upload_one_video title description category_id privacy_status
        made_for_kids false response).body.description = description :=
  ⟨rfl, rfl⟩

/-- C5: the loop runs over exactly the indices 1..N (their count is N, and
membership is exactly 1 ≤ i ≤ N); when `max_daily_uploads = 1` the derived
filename is `{date}.mp4` and the title is exactly `{titlePrefix} - {date}`
(no part segment is appended); when it is ≠ 1 the i-th filename is
`{date}-{i}.mp4` and the i-th title carries the `Part {i}` suffix, so it
contains `Part {i}` as a contiguous segment. -/
theorem spec_C5_job_derivation (today titlePrefix : String) (maxDaily i : Int) :
    (mainIndices maxDaily).length = maxDaily.toNat ∧
    (i ∈ mainIndices maxDaily ↔ 1 ≤ i ∧ i ≤ maxDaily) ∧
    (if maxDaily = 1 then
        jobFilename today maxDaily i = today ++ ".mp4" ∧
        jobTitle titlePrefix today maxDaily i = titlePrefix ++ " - " ++ today
      else
        jobFilename today maxDaily i = today ++ "-" ++ toString i ++ ".mp4" ∧
        jobTitle titlePrefix today maxDaily i =
          titlePrefix ++ " - " ++ today ++ " Part " ++ toString i ∧
        hasSeg (jobTitle titlePrefix today maxDaily i).toList
          ("Part " ++ toString i).toList = true) := by
  refine ⟨by simp only [mainIndices, List.length_map, List.length_range], ?_, ?_⟩
  · simp only [mainIndices, List.mem_map, List.mem_range]
    constructor
    · rintro ⟨a, ha, rfl⟩
      omega
    · rintro ⟨h1, h2⟩
      exact ⟨(i - 1).toNat, by omega, by omega⟩
  · by_cases h : maxDaily = 1
    · subst h
      rw [if_pos rfl]
      exact ⟨rfl, rfl⟩
    · rw [if_neg h]
      have hb : (maxDaily == 1) = false := by
        simpa using h
      refine ⟨by simp [jobFilename, hb], by simp [jobTitle, hb], ?_⟩
      have hjt : jobTitle titlePrefix today maxDaily i
          = titlePrefix ++ " - " ++ today ++ " Part " ++ toString i := by
        simp [jobTitle, hb]
      have hdata : (jobTitle titlePrefix today maxDaily i).toList
          = (titlePrefix ++ " - " ++ today ++ " ").toList ++ ("Part " ++ toString i).toList := by
        rw [hjt]
        show (titlePrefix ++ " - " ++ today ++ " Part " ++ toString i).data
          = (titlePrefix ++ " - " ++ today ++ " ").data ++ ("Part " ++ toString i).data
        simp only [String.data_append]
        simp [List.append_assoc]
      rw [hdata]
      exact hasSeg_append _ _

/-- C6 fails on the code at a concrete input: status 304 is not a success
status and is not 404, yet the fetch does not raise a propagated failure —
it proceeds to the download branch (saving an empty file here), because the
code only raises for statuses in [400, 600). -/
theorem spec_C6_counterexample :
    download_video_to_temp { status := 304, chunks := [] } = DownloadOutcome.saved [] ∧
    ¬ (200 ≤ 304 ∧ 304 < 300) ∧ (304 : Nat) ≠ 404 := by decide

/-- C6 amended: the Fetcher returns the NotFound outcome without raising
exactly when the status is 404; it raises a propagated failure exactly when
the status lies in [400, 600) and is not 404 (other non-success statuses
below 400 proceed to the download branch); and on a success (2xx) status it
returns a newly written file whose content is the concatenation of the
response body's non-empty chunks. -/
theorem spec_C6_fetch_outcomes (resp : HttpResponse) :
    (download_video_to_temp resp = DownloadOutcome.notFound ↔ resp.status = 404) ∧
    ((∃ m, download_video_to_temp resp = DownloadOutcome.raised m) ↔
      (resp.status ≠ 404 ∧ 400 ≤ resp.status ∧ resp.status < 600)) ∧
    (200 ≤ resp.status → resp.status < 300 →
      download_video_to_temp resp =
        DownloadOutcome.saved ((resp.chunks.filter (fun c => !c.isEmpty)).flatten)) := by
  refine ⟨?_, ?_, ?_⟩
  · by_cases h1 : resp.status = 404
    · simp [download_video_to_temp, h1]
    · by_cases h2 : 400 ≤ resp.status ∧ resp.status < 600
      · simp [download_video_to_temp, h1, h2]
      · simp [download_video_to_temp, h1, h2]
  · by_cases h1 : resp.status = 404
    · simp [download_video_to_temp, h1]
    · by_cases h2 : 400 ≤ resp.status ∧ resp.status < 600
      · simp [download_video_to_temp, h1, h2]
      · simp [download_video_to_temp, h1, h2]
  · intro ha hb
    have h1 : ¬ resp.status = 404 := by omega
    have h2 : ¬ (400 ≤ resp.status ∧ resp.status < 600) := by omega
    rw [download_video_to_temp, if_neg h1, if_neg h2, chunkFoldl_eq]
    rw [List.nil_append]

theorem spec_C6_witness :
    download_video_to_temp { status := 200, chunks := [[104, 105], [], [33]] }
      = DownloadOutcome.saved [104, 105, 33] := by
  have h := (spec_C6_fetch_outcomes { status := 200, chunks := [[104, 105], [], [33]] }).2.2
    (by decide) (by decide)
  simpa using h

/-- C7: for every index whose fetch returns NotFound, the orchestrator's
iteration leaves the `uploaded_any` flag unchanged and emits only the fetch
call — in particular it does not invoke the Uploader for that index, and
does not mark the run as having uploaded anything from that index. -/
theorem spec_C7_notfound_skips (cfg : Config) (today : String)
    (fetch : String → FetchResult) (upload : String → UploadResult)
    (uploadedAny : Bool) (index : Int)
    (h : fetch (composeUrl cfg.baseUrl cfg.prefixPath (jobFilename today cfg.maxDaily index))
        = FetchResult.notFound) :
    runIndex cfg today fetch upload uploadedAny index =
      (uploadedAny,
        [Event.fetchCall
          (composeUrl cfg.baseUrl cfg.prefixPath (jobFilename today cfg.maxDaily index))]) ∧
    (∀ path title d,
      Event.uploadCall path title d ∉ (runIndex cfg today fetch upload uploadedAny index).2) ∧
    indexSucceeds cfg today fetch upload index = false := by
  refine ⟨by simp [runIndex, h], ?_, by simp [indexSucceeds, runIndex, h]⟩
  intro path title d
  simp [runIndex, h]

theorem spec_C7_witness :
    indexSucceeds
      { baseUrl := "https://cdn.example.com", prefixPath := "videos",
        titlePrefix := "Daily Video", description := "", categoryId := "22",
        privacyStatus := "public", madeForKids := false, alteredContent := true,
        maxDaily := 1 }
      "2024-03-01" (fun _ => FetchResult.notFound)
      (fun _ => UploadResult.ok (some "vid")) 1 = false :=
  (spec_C7_notfound_skips
    { baseUrl := "https://cdn.example.com", prefixPath := "videos",
      titlePrefix := "Daily Video", description := "", categoryId := "22",
      privacyStatus := "public", madeForKids := false, alteredContent := true,
      maxDaily := 1 }
    "2024-03-01" (fun _ => FetchResult.notFound)
    (fun _ => UploadResult.ok (some "vid")) false 1 rfl).2.2

/-- C8: the run-level "nothing uploaded" notice occurs in the run's trace
exactly once when no index completed an upload successfully and zero times
otherwise, and the run's `uploaded_any` flag is true exactly when some
index of the loop completed an upload successfully. -/
theorem spec_C8_nothing_uploaded_notice (cfg : Config) (today : String)
    (fetch : String → FetchResult) (upload : String → UploadResult) :
    (runMain cfg today fetch upload).2.countP isNotice
        = (if (runMain cfg today fetch upload).1 then 0 else 1) ∧
    (runMain cfg today fetch upload).1
        = (mainIndices cfg.maxDaily).any
            (fun i => indexSucceeds cfg today fetch upload i) := by
  rw [runMain_eq]
  dsimp only
  refine ⟨?_, rfl⟩
  rw [List.countP_append]
  have h0 : (((mainIndices cfg.maxDaily).map
      (fun i => indexEvents cfg today fetch upload i)).flatten).countP isNotice = 0 := by
    rw [List.countP_flatten, List.map_map]
    apply List.sum_eq_zero
    intro x hx
    rw [List.mem_map] at hx
    obtain ⟨j, hj, rfl⟩ := hx
    exact indexEvents_notice_count cfg today fetch upload j
  rw [h0]
  by_cases hany : (mainIndices cfg.maxDaily).any
      (fun i => indexSucceeds cfg today fetch upload i) = true
  · simp [hany]
  · simp [hany, isNotice]

/-- C9 fails on the code at a concrete input: with the variable absent and
a caller default of true, `env_bool` returns true although the variable is
not present with one of the accepted values — the claim's "returns true
exactly when the variable is present and its value is one of 1/true/yes/y"
(`envBoolClaim`) contradicts its own fall-back-to-default clause. -/
theorem spec_C9_counterexample : ¬ envBoolClaim none true := by
  unfold envBoolClaim
  decide

/-- C9 amended: when the variable is present, the boolean reader returns
true exactly when the lowercased value is one of "1", "true", "yes", "y"
(so any other present value yields false); when the variable is absent it
returns the caller-supplied default (which may itself be true). -/
theorem spec_C9_env_bool (s : String) (default : Bool) :
    env_bool (some s) default = [ "1", "true", "yes", "y" ].contains (pyLower s) ∧
    env_bool none default = default :=
  ⟨rfl, rfl⟩

/-- C10: for every configuration whose `max_daily_uploads` is ≤ 0 (as
results e.g. from `YT_MAX_DAILY_UPLOADS="0"`, since `env_int (some "0") 1
= 0`), the loop body never runs — the run performs no fetch and no upload,
its whole trace is exactly the single "nothing uploaded" notice, and the
`uploaded_any` flag stays false. -/
theorem spec_C10_nonpositive_max (cfg : Config) (today : String)
    (fetch : String → FetchResult) (upload : String → UploadResult)
    (h : cfg.maxDaily ≤ 0) :
    runMain cfg today fetch upload = (false, [Event.notice]) := by
  have hi : mainIndices cfg.maxDaily = [] := by
    simp [mainIndices, Int.toNat_of_nonpos h]
  rw [runMain_eq, hi]
  simp

theorem spec_C10_witness :
    runMain
      { baseUrl := "https://cdn.example.com", prefixPath := "videos",
        titlePrefix := "Daily Video", description := "", categoryId := "22",
        privacyStatus := "public", madeForKids := false, alteredContent := true,
        maxDaily := env_int (some "0") 1 }
      "2024-03-01" (fun _ => FetchResult.ok "/tmp/t.mp4")
      (fun _ => UploadResult.ok (some "vid"))
      = (false, [Event.notice]) :=
  spec_C10_nonpositive_max
    { baseUrl := "https://cdn.example.com", prefixPath := "videos",
      titlePrefix := "Daily Video", description := "", categoryId := "22",
      privacyStatus := "public", madeForKids := false, alteredContent := true,
      maxDaily := env_int (some "0") 1 }
    "2024-03-01" (fun _ => FetchResult.ok "/tmp/t.mp4")
    (fun _ => UploadResult.ok (some "vid")) (by decide)
